import Mathlib

/-!
Verification of the GraphStorm repository artifacts against their
natural-language specification.

The repository contents modelled here are deployment and test artifacts:
container build recipes (Dockerfiles), a shell end-to-end test script,
graph-construction JSON configurations, a multi-task YAML configuration,
a CI security-scan workflow, and documentation of the output node ID
remapping CLI.  Pure data (configurations, workflow structure, script
structure) is transcribed directly from the source files; operations whose
implementation is not part of the provided source (the remapping CLI and
the training pipeline, which live in the external graphstorm Python
package) are modelled from the specification text, and each such
definition is marked in its doc comment.
-/

namespace GraphStorm

/- ================================================================
   Node ID remapping (docs/source/cli/model-training-inference/
   output-remapping.rst).

   The raw node IDs provided by users are converted into integer-based
   IDs first, then shuffled during graph partition, producing the
   shuffled integer node IDs that key training or inference output rows.
   The remapping operation maps the shuffled IDs back to the raw IDs
   using the node ID mapping files saved by graph construction.
   ================================================================ -/

/-- Modelled from the spec: the raw-to-integer node ID conversion performed
by graph construction (implementation not under the provided source).  Per
output-remapping.rst, the original node IDs provided by users in the raw
input data tables, normally strings, are converted into integer-based IDs
first.  A node type holds the list `raws` of raw IDs of its input table, in
table order; the integer ID of a raw ID is its position in that table. -/
def convert_raw_id (raws : List String) (r : String) : Nat :=
  raws.indexOf r

/-- Modelled from the spec: the shuffle applied by graph partition
(implementation not under the provided source).  Per output-remapping.rst,
the integer IDs are shuffled during graph partition operations, creating
another set of integer node IDs used in model training and inference.
`perm` is the permutation table: the node whose converted integer ID is `i`
receives shuffled ID `perm[i]`. -/
def shuffle_nid (perm : List Nat) (i : Nat) : Nat :=
  perm.getD i 0

/-- Modelled from the spec: the node ID mapping file generated and saved by
the graph construction pipeline for one node type (implementation not under
the provided source).  Entry `j` of the file holds the raw node ID of the
node whose shuffled integer ID is `j`. -/
def node_id_mapping (raws : List String) (perm : List Nat) : List String :=
  (List.range raws.length).map fun j => raws.getD (perm.indexOf j) ""

/-- Modelled from the spec: `graphstorm.gconstruct.remap_result`
(implementation not under the provided source).  Per output-remapping.rst,
remapping re-keys an output row, keyed by a shuffled integer node ID `j`,
by the raw node ID found in the node ID mapping file at position `j`. -/
def remap_result_row (mapping : List String) (j : Nat) : String :=
  mapping.getD j ""

/-- Auxiliary: a permutation table for `n` nodes is a duplicate-free list of
length `n` whose entries are below `n`. -/
def IsPermTable (perm : List Nat) (n : Nat) : Prop :=
  perm.Nodup ∧ perm.length = n ∧ ∀ x ∈ perm, x < n

/- ================================================================
   The end-to-end node-classification test script
   (tests/end2end-tests/graphstorm-nc/test.sh).

   The script is a straight-line sequence of commands.  Each command is
   transcribed below, in source order, as one item.  Progress-only
   commands (echo of a banner, date, cat of ip_list.txt) are elided; in
   the source no such command, and no command at all, stands between a
   training or inference CLI invocation and the status check that
   follows it, except in the two places transcribed explicitly
   (the ngnn save-model invocation at line 95, followed by two
   file-existence checks before its error_and_exit at line 110, and the
   tensorboard-without-package invocation at line 362, followed by an
   inverted status check at lines 364-368).
   ================================================================ -/

/-- One item of the test script: a `python3 -m <pymod>` training or
inference CLI invocation, a call of the `error_and_exit $?` helper, the
inverted status check `if test $? -eq 0 then exit -1`, a
`if [ ! -f <path> ] then exit 1` file-existence check, a counting check
(`cnt=...; if test $cnt ...; then exit -1; fi`), or any other command. -/
inductive NcScriptItem where
  | gsRun (pymod : String) (desc : String)
  | errorAndExitCall
  | invertedStatusCheck
  | fileExistsCheck (path : String)
  | countCheck (desc : String)
  | otherCmd (desc : String)
deriving DecidableEq, Repr

/-- Abbreviation for an invocation of the node-classification CLI module. -/
def gsNC (desc : String) : NcScriptItem :=
  NcScriptItem.gsRun "graphstorm.run.gs_node_classification" desc

/-- The `error_and_exit` helper of test.sh (lines 14-23): called with the
last exit status, it exits the script with `exit -1` (process exit code
255) when the status is nonzero, and returns (script continues) when the
status is zero.  `some c` means the script terminates with exit code `c`;
`none` means it continues. -/
def error_and_exit (status : Int) : Option Nat :=
  if status ≠ 0 then some 255 else none

/-- The inverted check of test.sh lines 364-368: after the tensorboard
tracker invocation without the tensorboard package installed, the script
exits with `exit -1` precisely when the command SUCCEEDED. -/
def inverted_status_check (status : Int) : Option Nat :=
  if status = 0 then some 255 else none

/-- The test script, transcribed command by command from
tests/end2end-tests/graphstorm-nc/test.sh (source line numbers in
comments). -/
def ncTestScript : List NcScriptItem :=
  [ NcScriptItem.otherCmd "service ssh restart"                -- line 3
  , NcScriptItem.otherCmd "cd training_scripts gsgnn_np or exit 1"  -- line 8
  , NcScriptItem.otherCmd "write 127.0.0.1 to ip_list.txt"     -- line 10
  , NcScriptItem.otherCmd "cat ip_list.txt"                    -- line 12
  , gsNC "standalone"                                          -- line 30
  , NcScriptItem.errorAndExitCall                              -- line 32
  , gsNC "decoder-norm layer"                                  -- line 35
  , NcScriptItem.errorAndExitCall                              -- line 37
  , gsNC "construct-feat decoder-norm batch"                   -- line 40
  , NcScriptItem.errorAndExitCall                              -- line 42
  , gsNC "construct-feat full-graph-infer"                     -- line 45
  , NcScriptItem.errorAndExitCall                              -- line 47
  , gsNC "input-activate none"                                 -- line 50
  , NcScriptItem.errorAndExitCall                              -- line 52
  , gsNC "dropout 0.5 decoder-bias"                            -- line 55
  , NcScriptItem.errorAndExitCall                              -- line 57
  , gsNC "no-test-set logging-file"                            -- line 60
  , NcScriptItem.errorAndExitCall                              -- line 62
  , NcScriptItem.otherCmd "bst_cnt grep Best Test accuracy NA in train_log"  -- line 64
  , NcScriptItem.countCheck "bst_cnt at least 1"               -- lines 65-69
  , NcScriptItem.otherCmd "rm train_log"                       -- line 71
  , NcScriptItem.otherCmd "mkdir ML_np_profile"                -- line 73
  , gsNC "profile-path"                                        -- line 76
  , NcScriptItem.errorAndExitCall                              -- line 78
  , NcScriptItem.otherCmd "cnt ls profile csv files"           -- line 80
  , NcScriptItem.countCheck "profile csv files at least 1"     -- lines 81-85
  , NcScriptItem.otherCmd "rm ML_np_profile"                   -- line 87
  , gsNC "full-graph-infer"                                    -- line 90
  , NcScriptItem.errorAndExitCall                              -- line 92
  , gsNC "ngnn-save-model"                                     -- line 95
  , NcScriptItem.fileExistsCheck "GRAPHSTORM_RUNTIME_UPDATED_TRAINING_CONFIG.yaml"  -- lines 98-101
  , NcScriptItem.fileExistsCheck "data_transform_new.json"     -- lines 104-107
  , NcScriptItem.errorAndExitCall                              -- line 110
  , NcScriptItem.otherCmd "mktemp EMBED_CHECK_DIR"             -- line 114
  , NcScriptItem.otherCmd "trap cleanup on script exit"        -- line 116
  , gsNC "inference test-set-only save-embed"                  -- lines 119-126
  , NcScriptItem.errorAndExitCall                              -- line 128
  , NcScriptItem.otherCmd "check_emb only-test 168 rows"       -- lines 132-139
  , NcScriptItem.errorAndExitCall                              -- line 140
  , gsNC "inference infer-all-target-nodes"                    -- lines 144-154
  , NcScriptItem.errorAndExitCall                              -- line 156
  , NcScriptItem.otherCmd "check_emb all-node"                 -- lines 159-164
  , NcScriptItem.errorAndExitCall                              -- line 166
  , NcScriptItem.otherCmd "rm ngnn model dir"                  -- line 168
  , gsNC "ngnn-input-save-model"                               -- line 171
  , NcScriptItem.errorAndExitCall                              -- line 173
  , gsNC "inference restore ngnn epoch-1"                      -- line 175
  , NcScriptItem.errorAndExitCall                              -- line 177
  , NcScriptItem.otherCmd "rm ngnn model dir again"            -- line 179
  , gsNC "sparse-embed"                                        -- line 182
  , NcScriptItem.errorAndExitCall                              -- line 184
  , gsNC "sparse-embed grad-clip"                              -- line 187
  , NcScriptItem.errorAndExitCall                              -- line 189
  , gsNC "two-layer save-model"                                -- line 192
  , NcScriptItem.errorAndExitCall                              -- line 194
  , gsNC "restart from epoch-1"                                -- line 197
  , NcScriptItem.errorAndExitCall                              -- line 199
  , NcScriptItem.otherCmd "check_emb epoch-1"                  -- line 202
  , NcScriptItem.errorAndExitCall                              -- line 204
  , NcScriptItem.otherCmd "check_emb epoch-2"                  -- line 206
  , NcScriptItem.errorAndExitCall                              -- line 208
  , gsNC "rgat mini-batch"                                     -- line 212
  , NcScriptItem.errorAndExitCall                              -- line 214
  , gsNC "rgat num-heads 8"                                    -- line 217
  , NcScriptItem.errorAndExitCall                              -- line 219
  , gsNC "rgat full-graph"                                     -- line 222
  , NcScriptItem.errorAndExitCall                              -- line 224
  , gsNC "rgat gnn-norm batch"                                 -- line 227
  , NcScriptItem.errorAndExitCall                              -- line 229
  , gsNC "rgat two-layer"                                      -- line 232
  , NcScriptItem.errorAndExitCall                              -- line 234
  , gsNC "hgt mini-batch"                                      -- line 238
  , NcScriptItem.errorAndExitCall                              -- line 240
  , gsNC "hgt full-graph"                                      -- line 243
  , NcScriptItem.errorAndExitCall                              -- line 245
  , NcScriptItem.otherCmd "rm movielen_100k_multi_label_nc"    -- line 247
  , NcScriptItem.otherCmd "cp dataset for multilabel"          -- line 248
  , NcScriptItem.otherCmd "gen_multilabel"                     -- line 249
  , gsNC "multilabel save-emb"                                 -- line 252
  , NcScriptItem.errorAndExitCall                              -- line 254
  , gsNC "multilabel weights"                                  -- line 257
  , NcScriptItem.errorAndExitCall                              -- line 259
  , gsNC "imbalance-class-weights"                             -- line 262
  , NcScriptItem.errorAndExitCall                              -- line 264
  , NcScriptItem.otherCmd "rm movielen_100k_multi_node_feat_nc"  -- line 266
  , NcScriptItem.otherCmd "cp dataset for multi node feat"     -- line 267
  , NcScriptItem.otherCmd "gen_multi_feat_nc"                  -- line 268
  , gsNC "multi-node-feat"                                     -- line 271
  , NcScriptItem.errorAndExitCall                              -- line 273
  , NcScriptItem.otherCmd "rm movielen_100k_multi_feat_nc"     -- line 275
  , NcScriptItem.otherCmd "cp dataset for multi feat"          -- line 276
  , NcScriptItem.otherCmd "gen_multi_feat_nc multi_feats"      -- line 278
  , gsNC "multi-feat"                                          -- line 281
  , NcScriptItem.errorAndExitCall                              -- line 283
  , gsNC "multi-target save-model"                             -- line 286
  , NcScriptItem.errorAndExitCall                              -- line 288
  , gsNC "inference preserve-input"                            -- line 291
  , NcScriptItem.errorAndExitCall                              -- line 293
  , NcScriptItem.countCheck "infer-emb dir has 4 entries"      -- lines 295-300
  , NcScriptItem.countCheck "movie embed parts equal NUM_TRAINERS"  -- lines 302-307
  , NcScriptItem.countCheck "user embed parts equal NUM_TRAINERS"   -- lines 310-316
  , NcScriptItem.countCheck "prediction dir has 4 entries"     -- lines 318-323
  , NcScriptItem.countCheck "movie predict files equal NUM_TRAINERS times 2"  -- lines 325-330
  , NcScriptItem.countCheck "movie nids files equal NUM_TRAINERS"   -- lines 332-337
  , NcScriptItem.countCheck "user predict files equal NUM_TRAINERS times 2"   -- lines 339-344
  , NcScriptItem.countCheck "user nids files equal NUM_TRAINERS"    -- lines 346-351
  , NcScriptItem.otherCmd "rm gsgnn_nc_ml contents"            -- line 353
  , NcScriptItem.otherCmd "gen_multilabel multi-target"        -- line 357
  , gsNC "multi-target multilabel"                             -- line 358
  , NcScriptItem.errorAndExitCall                              -- line 359
  , gsNC "tensorboard-no-package"                              -- line 362
  , NcScriptItem.invertedStatusCheck                           -- lines 364-368
  , NcScriptItem.otherCmd "pip install tensorboard"            -- line 371
  , gsNC "tensorboard focal"                                   -- line 375
  , NcScriptItem.errorAndExitCall                              -- line 377
  , NcScriptItem.countCheck "runs dir has 2 entries"           -- lines 379-384
  , NcScriptItem.otherCmd "rm runs"                            -- line 385
  , gsNC "tensorboard logs path"                               -- line 388
  , NcScriptItem.errorAndExitCall                              -- line 390
  , NcScriptItem.countCheck "logs dir has 2 entries"           -- lines 392-397
  , NcScriptItem.otherCmd "rm logs"                            -- line 398
  , gsNC "multiple feat groups"                                -- line 401
  , NcScriptItem.errorAndExitCall                              -- line 403
  , gsNC "feat groups learnable embeddings"                    -- line 406
  , NcScriptItem.errorAndExitCall                              -- line 408
  ]

/-- Check, item by item, that every CLI invocation of the script whose
description is not in `exc` is immediately followed by a call of
`error_and_exit $?`. -/
def immediatelyCheckedExcept (exc : List String) : List NcScriptItem → Bool
  | NcScriptItem.gsRun _ d :: rest =>
      (exc.contains d ||
        match rest with
        | NcScriptItem.errorAndExitCall :: _ => true
        | _ => false) && immediatelyCheckedExcept exc rest
  | _ :: rest => immediatelyCheckedExcept exc rest
  | [] => true

/-- Check that every CLI invocation of the script is immediately followed
by a call of `error_and_exit $?`. -/
def immediatelyChecked (s : List NcScriptItem) : Bool :=
  immediatelyCheckedExcept [] s

/-- The items of the script that follow the first CLI invocation with the
given description. -/
def restAfter (d : String) : List NcScriptItem → List NcScriptItem
  | NcScriptItem.gsRun _ d2 :: rest =>
      if d2 == d then rest else restAfter d rest
  | _ :: rest => restAfter d rest
  | [] => []

/-- The module names of all CLI invocations of the script, in order. -/
def gsRunModules (s : List NcScriptItem) : List String :=
  s.flatMap fun item =>
    match item with
    | NcScriptItem.gsRun m _ => [m]
    | _ => []

/- ================================================================
   Log grep semantics (test.sh lines 64-69) and the no-test-set run.
   ================================================================ -/

/-- Whether `pat` occurs as a contiguous sublist of the second list. -/
def listIsInfix {α : Type} [BEq α] : List α → List α → Bool
  | pat, [] => pat.isEmpty
  | pat, a :: rest => pat.isPrefixOf (a :: rest) || listIsInfix pat rest

/-- Whether the pattern occurs as a substring of the line (the grep
per-line match), character by character. -/
def grep_match (pat line : String) : Bool :=
  listIsInfix pat.toList line.toList

/-- Number of lines of the log matching the pattern
(`grep <pat> | wc -l`). -/
def grep_count (pat : String) (lines : List String) : Nat :=
  (lines.filter (grep_match pat)).length

/-- test.sh line 64: the number of log lines containing the string
Best Test accuracy: N/A. -/
def bst_cnt (log : List String) : Nat :=
  grep_count "Best Test accuracy: N/A" log

/-- test.sh lines 65-69: the script exits with `exit -1` when `bst_cnt`
is below 1. -/
def no_test_check_exits (log : List String) : Bool :=
  bst_cnt log < 1

/-- The observable result of a training pipeline run: its process exit
status and the lines of its log file. -/
structure PipelineRun where
  exitStatus : Int
  logLines : List String

/-- Modelled from the spec: the built-in node-classification training
pipeline `graphstorm.run.gs_node_classification` run on a partitioned
dataset whose test set is empty.  The implementation of the pipeline is
not part of the provided source (only its CLI invocations are); per the
expectation documented by test.sh lines 59-69, such a run completes with
exit status 0 and its log reports the best test accuracy as
Best Test accuracy: N/A instead of raising an error for the missing test
split. -/
def nc_run_no_test_set : PipelineRun :=
  { exitStatus := 0
  , logLines :=
      [ "INFO: Epoch 00001, Val accuracy: 0.2401"
      , "INFO: Best Test accuracy: N/A"
      , "INFO: successfully save the model to a file" ] }

/- ================================================================
   Remapping input file handling (output-remapping.rst lines 62-77 and
   the preserve-input checks of test.sh lines 290-351).
   ================================================================ -/

/-- The saved prediction output files of one node type: the shuffled
node ID part files and the prediction part files. -/
structure NodeOutputDir where
  nidFiles : List String
  predFiles : List String
deriving DecidableEq, Repr

/-- The default of the remapping CLI argument `--preserve-input`: per
output-remapping.rst, by default the remapping CLI removes the saved
files of embeddings or predictions after the remapping operation. -/
def preserve_input_default : Bool := false

/-- Modelled from the spec: the input file handling of
`graphstorm.gconstruct.remap_result` (implementation not part of the
provided source).  Per output-remapping.rst lines 75-77, when
`--preserve-input` is True the saved input files are kept; by default
they are removed after the remapping operation. -/
def remap_result_files (preserveInput : Bool) (d : NodeOutputDir) : NodeOutputDir :=
  if preserveInput then d else { nidFiles := [], predFiles := [] }

/-- test.sh sets NUM_TRAINERS=1 (line 6). -/
def NUM_TRAINERS : Nat := 1

/-- The prediction output directory of one node type written by a run
with the given number of trainers: one `predict_nids-...` file and one
`predict-...` file per trainer (output-remapping.rst lines 36-47). -/
def mk_pred_dir (numTrainers : Nat) : NodeOutputDir :=
  { nidFiles := (List.range numTrainers).map fun i =>
      "predict_nids-0000" ++ toString i ++ ".pt"
  , predFiles := (List.range numTrainers).map fun i =>
      "predict-0000" ++ toString i ++ ".pt" }

/-- The counting check of test.sh lines 325-351:
`ls ... | grep <pat> | wc -l`. -/
def count_matching (pat : String) (files : List String) : Nat :=
  (files.filter (grep_match pat)).length

/-- All files present in a prediction output directory. -/
def dirFiles (d : NodeOutputDir) : List String :=
  d.nidFiles ++ d.predFiles

/- ================================================================
   The multi-task inference YAML configuration
   (inference_scripts/mt_infer/ml_nc_ec_er_lp_only_infer.yaml).
   ================================================================ -/

/-- One entry of the `multi_task_learning` list: its task type, an
identifying field (the label field, the evaluation or target edge type,
or the reconstructed feature name), and its optional task-level
batch_size. -/
structure MtTask where
  taskType : String
  taskKey : String
  batchSize : Option Nat
deriving DecidableEq, Repr

/-- gsf.basic.batch_size of the YAML (line 8). -/
def mt_basic_batch_size : Nat := 32

/-- The seven entries of `multi_task_learning`, transcribed from the
YAML (lines 30-89), in order. -/
def mt_tasks : List MtTask :=
  [ ⟨"node_classification", "label", some 16⟩
  , ⟨"node_classification", "label2", some 16⟩
  , ⟨"edge_classification", "rate_class", some 64⟩
  , ⟨"edge_regression", "rate", none⟩
  , ⟨"link_prediction", "user,rating,movie", some 128⟩
  , ⟨"reconstruct_node_feat", "title", some 128⟩
  , ⟨"reconstruct_edge_feat", "feat", some 128⟩ ]

/-- Modelled from the spec: the per-task batch size resolution of the
multi-task configuration reader (implementation not part of the provided
source).  The YAML itself documents the rule at each task-level
batch_size entry: it "will overwrite the global batch_size", and a task
without one uses gsf.basic.batch_size. -/
def effective_batch_size (globalBatch : Nat) (t : MtTask) : Nat :=
  t.batchSize.getD globalBatch

/- ================================================================
   The CI security-scan workflow (.github/workflows/semgrep.yml).
   ================================================================ -/

/-- The trigger and job structure of the semgrep workflow. -/
structure SemgrepWorkflow where
  onPullRequest : Bool
  pushBranches : List String
  cronSchedules : List String
  scanRulesets : List String
  jobRunsIf : String → Bool

/-- The semgrep-scan workflow, transcribed from
.github/workflows/semgrep.yml: triggers (lines 4-11), the scan job with
its `if` actor condition (lines 18-27), and the four scan steps with
their rulesets (lines 37-48). -/
def semgrep_workflow : SemgrepWorkflow :=
  { onPullRequest := true
  , pushBranches := ["ci_dev", "ci_temporary", "main", "opensource_gsf"]
  , cronSchedules := ["0 */12 * * *"]
  , scanRulesets := ["p/default", "p/python", "p/dockerfile", "p/cwe-top-25"]
  , jobRunsIf := fun actor => !(actor == "dependabot[bot]") }

/-- Cron semantics of a `*/step` hour field: it matches hour `h` exactly
when `h` is a multiple of `step`. -/
def cron_step_matches (step h : Nat) : Bool :=
  h % step == 0

/- ================================================================
   Container build recipes: the pip installations of each Dockerfile.
   ================================================================ -/

/-- One requirement of a pip install command: the package name and its
version pin.  The pin is `some v` when the command gives `pkg==v`
literally or through a build argument whose default is `v`, and `none`
when no version is specified. -/
structure PipReq where
  pkg : String
  pin : Option String
deriving DecidableEq, Repr

/-- One pip install command of a Dockerfile: a list of named
requirements, an install from a requirements file, or an install of a
local package directory. -/
inductive PipInstall where
  | pkgList (reqs : List PipReq)
  | requirementsFile (path : String)
  | localPackage (path : String)
deriving DecidableEq, Repr

/-- A container build recipe: its path and its pip install commands in
source order, over all build stages. -/
structure BuildRecipe where
  path : String
  installs : List PipInstall
deriving DecidableEq, Repr

/-- The GraphStorm runtime Dockerfile (src/unnamed/part_000).  Its pip
installs: the base GraphStorm-dependencies install (lines 33-45), whose
last requirement pyyaml (line 44) gives no version; the torch install
(lines 48-51, pinned through ARG TORCH_VERSION=2.1.2); and the
dgl/ogb/transformers install (lines 53-57, pinned through
ARG DGL_VERSION=1.1.3, OGB_VERSION=1.3.6,
TRANSFORMERS_VERSION=4.28.1). -/
def graphstorm_runtime_dockerfile : BuildRecipe :=
  { path := "unnamed/part_000"
  , installs :=
      [ PipInstall.pkgList
          [ ⟨"boto3", some "1.34.89"⟩, ⟨"botocore", some "1.34.89"⟩
          , ⟨"h5py", some "3.11.0"⟩, ⟨"networkx", some "3.1"⟩
          , ⟨"psutil", some "5.9.8"⟩, ⟨"pyarrow", some "14.0.0"⟩
          , ⟨"pydantic", some "2.7.0"⟩, ⟨"scikit-learn", some "1.4.2"⟩
          , ⟨"scipy", some "1.13.0"⟩, ⟨"torchdata", some "0.9.0"⟩
          , ⟨"pyyaml", none⟩ ]
      , PipInstall.pkgList [⟨"torch", some "2.1.2"⟩]
      , PipInstall.pkgList
          [ ⟨"dgl", some "1.1.3"⟩, ⟨"ogb", some "1.3.6"⟩
          , ⟨"transformers", some "4.28.1"⟩ ] ] }

/-- The second GraphStorm runtime Dockerfile, bundled as a related
document inside .github/workflows/semgrep.yml (after the document
separator).  Stages: the base dependency install (its lines 33-46), the
base-cpu torch and DGL installs (lines 62-76, pinned through
ARG TORCH_VERSION=2.3.0 and DGL_VERSION=2.3.0), the base-gpu install
(lines 79-89), and the parmetis-true stage pyyaml install (lines
101-103), which gives no version. -/
def semgrep_bundled_runtime_dockerfile : BuildRecipe :=
  { path := ".github/workflows/semgrep.yml"
  , installs :=
      [ PipInstall.pkgList
          [ ⟨"boto3", some "1.34.89"⟩, ⟨"numpy", some "1.26.4"⟩
          , ⟨"botocore", some "1.34.89"⟩, ⟨"h5py", some "3.11.0"⟩
          , ⟨"networkx", some "3.1"⟩, ⟨"psutil", some "5.9.8"⟩
          , ⟨"pyarrow", some "16.1.0"⟩, ⟨"pydantic", some "2.7.0"⟩
          , ⟨"scikit-learn", some "1.4.2"⟩, ⟨"scipy", some "1.13.0"⟩
          , ⟨"tensorboard", some "2.18.0"⟩ ]
      , PipInstall.pkgList [⟨"torch", some "2.3.0"⟩]
      , PipInstall.pkgList
          [ ⟨"dgl", some "2.3.0"⟩, ⟨"ogb", some "1.3.6"⟩
          , ⟨"torchdata", some "0.9.0"⟩, ⟨"transformers", some "4.28.1"⟩ ]
      , PipInstall.pkgList
          [ ⟨"dgl", some "2.3.0+cu121"⟩, ⟨"ogb", some "1.3.6"⟩
          , ⟨"torch", some "2.3.0"⟩, ⟨"torchdata", some "0.9.0"⟩
          , ⟨"transformers", some "4.28.1"⟩ ]
      , PipInstall.pkgList [⟨"pyyaml", none⟩] ] }

/-- docker/sagemaker/Dockerfile.sm: the branch-gpu and branch-cpu DGL
installs (lines 12 and 19, pinned through ARG DGL_VERSION=2.3.0) and the
final dependency install (lines 31-43). -/
def sagemaker_training_dockerfile : BuildRecipe :=
  { path := "docker/sagemaker/Dockerfile.sm"
  , installs :=
      [ PipInstall.pkgList [⟨"dgl", some "2.3.0+cu121"⟩]
      , PipInstall.pkgList [⟨"dgl", some "2.3.0"⟩]
      , PipInstall.pkgList
          [ ⟨"boto3", some "1.34.112"⟩, ⟨"numba", some "0.59.1"⟩
          , ⟨"numpy", some "1.26.4"⟩, ⟨"ogb", some "1.3.6"⟩
          , ⟨"pyarrow", some "16.1.0"⟩, ⟨"pydantic", some "2.7.1"⟩
          , ⟨"scikit-learn", some "1.5.0"⟩, ⟨"scipy", some "1.13.1"⟩
          , ⟨"tensorboard", some "2.18.0"⟩, ⟨"torchdata", some "0.9.0"⟩
          , ⟨"transformers", some "4.28.1"⟩ ] ] }

/-- docker/sagemaker/Dockerfile.endpoint: per device branch, the
GraphBolt dependency install (lines 16-21 and 39-44), the torch install
(lines 23-26 and 46-49) and the DGL install (lines 29-30 and 52-53,
pinned through ARG DGL_VERSION=2.5.0). -/
def sagemaker_endpoint_dockerfile : BuildRecipe :=
  { path := "docker/sagemaker/Dockerfile.endpoint"
  , installs :=
      [ PipInstall.pkgList
          [ ⟨"torchdata", some "0.9.0"⟩, ⟨"pydantic", some "2.7.1"⟩
          , ⟨"transformers", some "4.47.1"⟩, ⟨"ogb", some "1.3.6"⟩ ]
      , PipInstall.pkgList [⟨"torch", some "2.3"⟩]
      , PipInstall.pkgList [⟨"dgl", some "2.5.0+cu121"⟩]
      , PipInstall.pkgList
          [ ⟨"torchdata", some "0.9.0"⟩, ⟨"pydantic", some "2.7.1"⟩
          , ⟨"transformers", some "4.47.1"⟩, ⟨"ogb", some "1.3.6"⟩ ]
      , PipInstall.pkgList [⟨"torch", some "2.3"⟩]
      , PipInstall.pkgList [⟨"dgl", some "2.5.0"⟩] ] }

/-- graphstorm-processing/docker/0.4.0/sagemaker/Dockerfile.cpu: the
requirements.txt install, the local graphstorm-processing package
install, and the test stage mock and pytest install (no versions). -/
def gsprocessing_sagemaker_dockerfile : BuildRecipe :=
  { path := "graphstorm-processing/docker/0.4.0/sagemaker/Dockerfile.cpu"
  , installs :=
      [ PipInstall.requirementsFile "requirements.txt"
      , PipInstall.localPackage "/usr/lib/spark/code/graphstorm-processing/"
      , PipInstall.pkgList [⟨"mock", none⟩, ⟨"pytest", none⟩] ] }

/-- The GSProcessing EMR serverless Dockerfile (src/unnamed/part_001):
the requirements.txt install, the local graphstorm-processing package
install, and the test stage mock and pytest install (no versions). -/
def gsprocessing_emr_dockerfile : BuildRecipe :=
  { path := "unnamed/part_001"
  , installs :=
      [ PipInstall.requirementsFile "requirements.txt"
      , PipInstall.localPackage "/usr/lib/spark/code/graphstorm-processing/"
      , PipInstall.pkgList [⟨"mock", none⟩, ⟨"pytest", none⟩] ] }

/-- All container build recipes of the repository: the two GraphStorm
runtime Dockerfiles (src/unnamed/part_000 and the one bundled inside
semgrep.yml), the two SageMaker Dockerfiles, and the two GSProcessing
Dockerfiles. -/
def container_recipes : List BuildRecipe :=
  [ graphstorm_runtime_dockerfile
  , semgrep_bundled_runtime_dockerfile
  , sagemaker_training_dockerfile
  , sagemaker_endpoint_dockerfile
  , gsprocessing_sagemaker_dockerfile
  , gsprocessing_emr_dockerfile ]

/-- A named requirement is pinned when it carries a version. -/
def pipReqPinned (r : PipReq) : Bool :=
  r.pin.isSome

/-- A pip install command is fully pinned when every named requirement
in it is pinned. -/
def installFullyPinned : PipInstall → Bool
  | PipInstall.pkgList reqs => reqs.all pipReqPinned
  | _ => true

/-- A recipe is fully pinned when all its pip install commands are. -/
def recipeFullyPinned (b : BuildRecipe) : Bool :=
  b.installs.all installFullyPinned

/-- The names of the unpinned named requirements of a recipe. -/
def recipe_unpinned_pkgs (b : BuildRecipe) : List String :=
  b.installs.flatMap fun inst =>
    match inst with
    | PipInstall.pkgList reqs =>
        (reqs.filter fun r => !pipReqPinned r).map PipReq.pkg
    | _ => []

/- ================================================================
   The repository inventory: kinds of the provided source files, the
   graphstorm code COPY lines of the images, and the notebook imports.
   ================================================================ -/

/-- The kind of a provided source file. -/
inductive FileKind where
  | dockerfile
  | shellScript
  | jsonConfig
  | yamlConfig
  | notebook
  | rstDoc
  | workflowConfig
  | pythonModule
deriving DecidableEq, Repr

/-- A provided source file with its kind. -/
structure SourceFile where
  path : String
  kind : FileKind
deriving DecidableEq, Repr

/-- The fifteen files of the provided source, with the kind read off
from each file. -/
def repo_files : List SourceFile :=
  [ ⟨"graphstorm-processing/docker/0.4.0/sagemaker/Dockerfile.cpu", FileKind.dockerfile⟩
  , ⟨"graphstorm-processing/tests/resources/small_heterogeneous_graph/gsprocessing-config.json", FileKind.jsonConfig⟩
  , ⟨".github/workflows/semgrep.yml", FileKind.workflowConfig⟩
  , ⟨"docker/sagemaker/Dockerfile.sm", FileKind.dockerfile⟩
  , ⟨"docker/sagemaker/Dockerfile.endpoint", FileKind.dockerfile⟩
  , ⟨"tests/end2end-tests/data_gen/movielens_nc_binary.json", FileKind.jsonConfig⟩
  , ⟨"tests/end2end-tests/graphstorm-nc/test.sh", FileKind.shellScript⟩
  , ⟨"inference_scripts/mt_infer/ml_nc_ec_er_lp_only_infer.yaml", FileKind.yamlConfig⟩
  , ⟨"tools/sm_commands.sh", FileKind.shellScript⟩
  , ⟨"docs/source/api/notebooks/Notebook_1_NC_Pipeline.ipynb", FileKind.notebook⟩
  , ⟨"docs/source/api/notebooks/Notebook_3_Model_Variants.ipynb", FileKind.notebook⟩
  , ⟨"docs/source/cli/model-training-inference/output-remapping.rst", FileKind.rstDoc⟩
  , ⟨"unnamed/part_000", FileKind.dockerfile⟩
  , ⟨"unnamed/part_001", FileKind.dockerfile⟩
  , ⟨"unnamed/part_002", FileKind.jsonConfig⟩ ]

/-- A COPY line of a Dockerfile: build-context source and image
destination. -/
structure CopyLine where
  src : String
  dst : String
deriving DecidableEq, Repr

/-- The COPY lines through which the images obtain the graphstorm
Python package: from src/unnamed/part_000 (the runtime image),
docker/sagemaker/Dockerfile.sm, and docker/sagemaker/Dockerfile.endpoint.
Each source path lies in the build context prepared outside the
provided source tree. -/
def graphstorm_code_copies : List CopyLine :=
  [ ⟨"code/python/graphstorm", "/graphstorm/python/graphstorm"⟩
  , ⟨"code/graphstorm/", "/usr/local/lib/graphstorm/"⟩
  , ⟨"code/graphstorm/sagemaker/run/*", "/opt/ml/code/"⟩
  , ⟨"code/graphstorm/", "/opt/ml/code/graphstorm/"⟩ ]

/-- Whether `p` is a prefix of `s`, character by character. -/
def strHasPrefix (p s : String) : Bool :=
  p.toList.isPrefixOf s.toList

/-- The import statements through which the documentation notebooks use
graphstorm, transcribed from Notebook_1_NC_Pipeline.ipynb and
Notebook_3_Model_Variants.ipynb. -/
def notebook_graphstorm_imports : List String :=
  [ "import graphstorm as gs"
  , "from graphstorm.model import GSgnnNodeModel, GSNodeEncoderInputLayer, RelationalGCNEncoder, EntityClassifier, ClassifyLossFunc"
  , "from graphstorm.model import RelationalGATEncoder"
  , "from graphstorm.model import GSgnnLinkPredictionModel, HGTEncoder, LinkPredictDistMultDecoder" ]

/- ================================================================
   Feature entries of the graph-construction JSON configurations:
   graphstorm-processing/tests/resources/small_heterogeneous_graph/
   gsprocessing-config.json, tests/end2end-tests/data_gen/
   movielens_nc_binary.json, and src/unnamed/part_002 (a gsprocessing
   configuration for the ACM data).
   ================================================================ -/

/-- A keyword argument value of a transformation. -/
inductive KwVal where
  | vs (s : String)
  | vi (i : Int)
  | vq (q : ℚ)
  | vlist (l : List Int)
deriving DecidableEq, Repr

/-- A feature transformation: its name and keyword arguments.  In the
gsprocessing schema these are the `transformation.name` and
`transformation.kwargs` objects; in the gconstruct schema
(movielens_nc_binary.json) the `transform.name` with the remaining keys
of the `transform` object. -/
structure FeatTransform where
  name : String
  kwargs : List (String × KwVal)
deriving DecidableEq, Repr

/-- A feature entry of a graph-construction configuration: the source
column (`column` or `feature_col`), the optional feature name (`name`),
and the optional transformation (`transformation` or `transform`). -/
structure FeatureEntry where
  column : String
  featName : Option String
  transformation : Option FeatTransform
deriving DecidableEq, Repr

/-- The feature entries of gsprocessing-config.json (the user node
features, lines 36-88, and the rating edge feature, lines 137-147), in
source order. -/
def gsprocessing_small_graph_features : List FeatureEntry :=
  [ ⟨"age", none, some ⟨"numerical",
      [("normalizer", KwVal.vs "none"), ("imputer", KwVal.vs "mean"),
       ("out_dtype", KwVal.vs "float64")]⟩⟩
  , ⟨"multi", none, some ⟨"multi-numerical",
      [("normalizer", KwVal.vs "standard"), ("imputer", KwVal.vs "mean"),
       ("separator", KwVal.vs "|")]⟩⟩
  , ⟨"multi", some "no-op-truncated", some ⟨"no-op",
      [("separator", KwVal.vs "|"), ("truncate_dim", KwVal.vi 1)]⟩⟩
  , ⟨"occupation", none, some ⟨"huggingface",
      [("action", KwVal.vs "tokenize_hf"),
       ("hf_model", KwVal.vs "bert-base-uncased"),
       ("max_seq_length", KwVal.vi 16)]⟩⟩
  , ⟨"state", none, some ⟨"categorical", []⟩⟩
  , ⟨"rating", none, some ⟨"huggingface",
      [("action", KwVal.vs "tokenize_hf"),
       ("hf_model", KwVal.vs "bert-base-uncased"),
       ("max_seq_length", KwVal.vi 16)]⟩⟩ ]

/-- The feature entries of movielens_nc_binary.json: the user `feat`
feature without a transform and the movie `title` feature with the
bert_hf transform (lines 8-13 and 27-36). -/
def movielens_nc_binary_features : List FeatureEntry :=
  [ ⟨"feat", none, none⟩
  , ⟨"title", none, some ⟨"bert_hf",
      [("bert_model", KwVal.vs "bert-base-uncased"),
       ("max_seq_length", KwVal.vi 16)]⟩⟩ ]

/-- The feature entries of src/unnamed/part_002 (the paper node
features and the author-writing-paper edge features), in source
order. -/
def gsprocessing_acm_features : List FeatureEntry :=
  [ ⟨"citation_time", some "feat", none⟩
  , ⟨"citation_time", some "feat_truncate", some ⟨"no-op",
      [("separator", KwVal.vs ","), ("truncate_dim", KwVal.vi 64)]⟩⟩
  , ⟨"num_citations", none, some ⟨"numerical",
      [("normalizer", KwVal.vs "min-max"), ("imputer", KwVal.vs "mean")]⟩⟩
  , ⟨"num_citations", none, some ⟨"bucket_numerical",
      [("bucket_cnt", KwVal.vi 9), ("range", KwVal.vlist [10, 100]),
       ("slide_window_size", KwVal.vi 5), ("imputer", KwVal.vs "mean")]⟩⟩
  , ⟨"num_citations", some "rank_gauss1", some ⟨"numerical",
      [("normalizer", KwVal.vs "rank-gauss"), ("imputer", KwVal.vs "mean")]⟩⟩
  , ⟨"num_citations", some "rank_gauss2", some ⟨"numerical",
      [("normalizer", KwVal.vs "rank-gauss"), ("epsilon", KwVal.vq (1 / 10)),
       ("imputer", KwVal.vs "mean")]⟩⟩
  , ⟨"num_citations", none, some ⟨"categorical", []⟩⟩
  , ⟨"num_citations", none, some ⟨"multi-categorical",
      [("separator", KwVal.vs ",")]⟩⟩
  , ⟨"citation_name", none, some ⟨"huggingface",
      [("action", KwVal.vs "tokenize_hf"), ("hf_model", KwVal.vs "bert"),
       ("max_seq_length", KwVal.vi 64)]⟩⟩
  , ⟨"citation_name", none, some ⟨"huggingface",
      [("action", KwVal.vs "embedding_hf"), ("hf_model", KwVal.vs "bert"),
       ("max_seq_length", KwVal.vi 64)]⟩⟩
  , ⟨"author", some "feat", none⟩
  , ⟨"author", some "hard_negative", some ⟨"edge_dst_hard_negative",
      [("separator", KwVal.vs ";")]⟩⟩
  , ⟨"num_feature", none, some ⟨"numerical",
      [("normalizer", KwVal.vs "standard"), ("imputer", KwVal.vs "mean")]⟩⟩ ]

/-- All feature entries of the graph-construction configurations. -/
def all_feature_entries : List FeatureEntry :=
  gsprocessing_small_graph_features ++ movielens_nc_binary_features ++
    gsprocessing_acm_features

/-- Whether a transformation carries the keyword argument `k`. -/
def hasKw (t : FeatTransform) (k : String) : Bool :=
  t.kwargs.any fun p => p.1 == k

/-- The value of the keyword argument `k` of a transformation. -/
def kwLookup (t : FeatTransform) (k : String) : Option KwVal :=
  (t.kwargs.find? fun p => p.1 == k).map Prod.snd

/-- The transformation vocabulary asserted by the claim: numerical
normalization with normalizer min-max, standard, or rank-gauss plus an
imputer; bucketized numerical with bucket_cnt and range; categorical and
multi-categorical; HuggingFace tokenization or embedding with a model
name and max_seq_length (in either the gsprocessing huggingface or the
gconstruct bert_hf spelling). -/
def claimed_transform_vocab (t : FeatTransform) : Bool :=
  (t.name == "numerical" &&
    [some (KwVal.vs "min-max"), some (KwVal.vs "standard"),
     some (KwVal.vs "rank-gauss")].contains (kwLookup t "normalizer") &&
    hasKw t "imputer")
  || (t.name == "bucket_numerical" && hasKw t "bucket_cnt" && hasKw t "range")
  || t.name == "categorical"
  || t.name == "multi-categorical"
  || (t.name == "huggingface" && hasKw t "hf_model" && hasKw t "max_seq_length")
  || (t.name == "bert_hf" && hasKw t "bert_model" && hasKw t "max_seq_length")

/-- The transformation vocabulary actually present in the
configurations: additionally the normalizer none, the multi-numerical,
no-op and edge_dst_hard_negative transformations, and categorical
without keyword arguments. -/
def config_transform_vocab (t : FeatTransform) : Bool :=
  (t.name == "numerical" &&
    [some (KwVal.vs "none"), some (KwVal.vs "min-max"),
     some (KwVal.vs "standard"),
     some (KwVal.vs "rank-gauss")].contains (kwLookup t "normalizer") &&
    hasKw t "imputer")
  || (t.name == "multi-numerical" && hasKw t "normalizer" &&
      hasKw t "imputer" && hasKw t "separator")
  || t.name == "no-op"
  || (t.name == "bucket_numerical" && hasKw t "bucket_cnt" && hasKw t "range")
  || t.name == "categorical"
  || t.name == "multi-categorical"
  || (t.name == "huggingface" && hasKw t "hf_model" && hasKw t "max_seq_length")
  || (t.name == "bert_hf" && hasKw t "bert_model" && hasKw t "max_seq_length")
  || t.name == "edge_dst_hard_negative"

/-- Modelled from the spec: a feature entry with no transformation takes
the source column values as-is (the default of the construction
pipelines, whose implementation is not part of the provided source).
The transformation application itself is kept abstract as the parameter
`applyT`. -/
def apply_optional_transform {α : Type} (t : Option FeatTransform)
    (applyT : FeatTransform → List α → List α) (vals : List α) : List α :=
  match t with
  | none => vals
  | some tr => applyT tr vals

/- ================================================================
   Label split specifications of the graph-construction configurations.
   ================================================================ -/

/-- A label split specification: the label column and the train,
validation and test fractions (`split_rate` with train, val and test
keys in the gsprocessing schema; `split_pct` as a three-element list in
the gconstruct schema). -/
structure LabelSplit where
  labelCol : String
  train : ℚ
  val : ℚ
  test : ℚ

/-- All label split specifications of the configurations:
gsprocessing-config.json lines 117-127 (user gender), src/unnamed/
part_002 (paper label, edge_col, edge_col2), and
movielens_nc_binary.json (user label_binary, movie label, edge rate). -/
def all_label_splits : List LabelSplit :=
  [ ⟨"gender", 8 / 10, 1 / 10, 1 / 10⟩
  , ⟨"label", 8 / 10, 1 / 10, 1 / 10⟩
  , ⟨"edge_col", 8 / 10, 2 / 10, 0⟩
  , ⟨"edge_col2", 9 / 10, 1 / 10, 0⟩
  , ⟨"label_binary", 8 / 10, 1 / 10, 1 / 10⟩
  , ⟨"label", 8 / 10, 1 / 10, 1 / 10⟩
  , ⟨"rate", 1 / 10, 1 / 10, 1 / 10⟩ ]

/-- The three fractions of a split specification. -/
def split_fracs (s : LabelSplit) : List ℚ :=
  [s.train, s.val, s.test]

/-- The sum of the three fractions of a split specification. -/
def split_sum (s : LabelSplit) : ℚ :=
  s.train + s.val + s.test

/-- C1: for every node whose output row is keyed by a shuffled integer
node ID, remapping re-keys the row by the original raw node identifier:
the remapping operation composed with the raw-to-integer ID conversion
and the partition-time shuffle is the identity on node identity, for
every node type (any raw ID table `raws`) and every node in it. -/
theorem remap_round_trip (raws : List String) (perm : List Nat) (r : String)
    (hperm : IsPermTable perm raws.length) (hr : r ∈ raws) :
    remap_result_row (node_id_mapping raws perm)
      (shuffle_nid perm (convert_raw_id raws r)) = r := by
  obtain ⟨hpnd, hplen, hplt⟩ := hperm
  have hi : raws.indexOf r < raws.length := List.indexOf_lt_length.mpr hr
  have hi' : raws.indexOf r < perm.length := by rwa [hplen]
  have hshuffle : shuffle_nid perm (convert_raw_id raws r) =
      perm[raws.indexOf r] := by
    simp [shuffle_nid, convert_raw_id, List.getD_eq_getElem?_getD,
      List.getElem?_eq_getElem hi']
  have hj : perm[raws.indexOf r] < raws.length :=
    hplt _ (List.getElem_mem hi')
  rw [hshuffle]
  have hmaplen : (node_id_mapping raws perm).length = raws.length := by
    simp [node_id_mapping]
  have hmap : (node_id_mapping raws perm).getD (perm[raws.indexOf r]) "" =
      raws.getD (perm.indexOf (perm[raws.indexOf r])) "" := by
    have hjlen : perm[raws.indexOf r] < (node_id_mapping raws perm).length := by
      rwa [hmaplen]
    rw [List.getD_eq_getElem?_getD, List.getElem?_eq_getElem hjlen]
    simp [node_id_mapping]
  have hinv : perm.indexOf (perm[raws.indexOf r]) = raws.indexOf r :=
    List.indexOf_getElem hpnd _ hi'
  rw [remap_result_row, hmap, hinv, List.getD_eq_getElem?_getD,
    List.getElem?_eq_getElem hi]
  simp [List.getElem_indexOf]

/-- Witness for C1 at a concrete three-node table and shuffle. -/
theorem remap_round_trip_witness :
    IsPermTable [2, 0, 1] (["u10", "u1", "u23"] : List String).length ∧
    "u1" ∈ (["u10", "u1", "u23"] : List String) ∧
    remap_result_row (node_id_mapping ["u10", "u1", "u23"] [2, 0, 1])
      (shuffle_nid [2, 0, 1] (convert_raw_id ["u10", "u1", "u23"] "u1")) = "u1" := by
  refine ⟨⟨by decide, by decide, by decide⟩, by decide, ?_⟩
  exact remap_round_trip ["u10", "u1", "u23"] [2, 0, 1] "u1"
    ⟨by decide, by decide, by decide⟩ (by decide)

/-- C2 counterexample: it is not the case that every CLI invocation of
the end-to-end node-classification test script is immediately followed
by a status check that terminates exactly on a nonzero status.  The
tensorboard-without-package invocation is followed by the inverted
check, which terminates the script exactly when the status is zero. -/
theorem nc_cli_status_check_counterexample :
    immediatelyChecked ncTestScript = false ∧
    (restAfter "tensorboard-no-package" ncTestScript).take 1 =
      [NcScriptItem.invertedStatusCheck] ∧
    inverted_status_check 0 = some 255 ∧
    inverted_status_check 1 = none := by
  refine ⟨by decide, by decide, by decide, by decide⟩

/-- C2 (amended): every CLI invocation of the test script except two is
immediately followed by `error_and_exit $?`, which terminates the script
with the nonzero exit code 255 exactly when the status is nonzero and
continues otherwise.  The exceptions: the ngnn save-model invocation is
followed by two file-existence checks before its `error_and_exit $?`
(so the status checked there is that of the last `if`), and the
tensorboard-without-package invocation is followed by an inverted check
that terminates exactly when the command succeeded. -/
theorem nc_cli_status_checks_amended :
    immediatelyCheckedExcept ["ngnn-save-model", "tensorboard-no-package"]
      ncTestScript = true
    ∧ (∀ s : Int, s ≠ 0 → error_and_exit s = some 255)
    ∧ error_and_exit 0 = none
    ∧ (255 : Nat) ≠ 0
    ∧ (restAfter "ngnn-save-model" ncTestScript).take 3 =
        [NcScriptItem.fileExistsCheck "GRAPHSTORM_RUNTIME_UPDATED_TRAINING_CONFIG.yaml",
         NcScriptItem.fileExistsCheck "data_transform_new.json",
         NcScriptItem.errorAndExitCall]
    ∧ (restAfter "tensorboard-no-package" ncTestScript).take 1 =
        [NcScriptItem.invertedStatusCheck]
    ∧ inverted_status_check 0 = some 255
    ∧ (∀ s : Int, s ≠ 0 → inverted_status_check s = none) := by
  refine ⟨by decide, ?_, by decide, by decide, by decide, by decide, by decide, ?_⟩
  · intro s hs
    simp [error_and_exit, hs]
  · intro s hs
    simp [inverted_status_check, hs]

/-- Witness for the amended C2 at the concrete status 7. -/
theorem nc_cli_status_checks_amended_witness :
    error_and_exit 7 = some 255 ∧ inverted_status_check 7 = none := by
  have h := nc_cli_status_checks_amended
  exact ⟨h.2.1 7 (by decide), h.2.2.2.2.2.2.2 7 (by decide)⟩

/-- C3 counterexample: not every pip installation in the container build
recipes pins a version.  The base GraphStorm-dependencies install of the
runtime Dockerfile src/unnamed/part_000 (lines 33-45) includes pyyaml
(line 44) with no version: that recipe has exactly one unpinned named
requirement, pyyaml, sitting in the very install the claim cites. -/
theorem pip_pinning_counterexample :
    container_recipes.all recipeFullyPinned = false
    ∧ graphstorm_runtime_dockerfile ∈ container_recipes
    ∧ recipe_unpinned_pkgs graphstorm_runtime_dockerfile = ["pyyaml"]
    ∧ ⟨"pyyaml", none⟩ ∈
        (graphstorm_runtime_dockerfile.installs.flatMap fun inst =>
          match inst with
          | PipInstall.pkgList reqs => reqs
          | _ => [])
    ∧ pipReqPinned ⟨"pyyaml", none⟩ = false := by
  refine ⟨by decide, by decide, by decide, by decide, by decide⟩

/-- C3 (amended): in every container build recipe, every pip
installation of a named package specifies an exact pinned version,
directly or through a build argument with a specific default, with
exactly these exceptions: pyyaml, unpinned in the base dependency
install of the runtime Dockerfile src/unnamed/part_000 and in the
ParMETIS stage of the second runtime Dockerfile bundled inside
semgrep.yml, and mock and pytest, unpinned in the test stages of the two
GSProcessing images.  In particular the two SageMaker training and
endpoint recipes are fully pinned. -/
theorem pip_pinning_amended :
    container_recipes.map recipe_unpinned_pkgs =
      [["pyyaml"], ["pyyaml"], [], [], ["mock", "pytest"], ["mock", "pytest"]]
    ∧ recipeFullyPinned sagemaker_training_dockerfile = true
    ∧ recipeFullyPinned sagemaker_endpoint_dockerfile = true := by
  refine ⟨by decide, by decide, by decide⟩

/-- C4: no provided source file is a Python module (so none implements
the GNN model code, the training loop, the partitioning algorithm or the
sampling engine); all 38 training or inference runs of the test script
invoke modules under graphstorm.run externally; the images obtain the
graphstorm package through COPY lines whose sources lie in the build
context, outside the provided source tree; and the notebooks consume
graphstorm only through package imports. -/
theorem repo_provides_no_engine_implementation :
    repo_files.length = 15
    ∧ repo_files.all (fun f => f.kind != FileKind.pythonModule) = true
    ∧ (gsRunModules ncTestScript).length = 38
    ∧ (gsRunModules ncTestScript).all
        (fun m => strHasPrefix "graphstorm.run." m) = true
    ∧ graphstorm_code_copies.all (fun c => strHasPrefix "code/" c.src) = true
    ∧ graphstorm_code_copies.all
        (fun c => repo_files.all fun f => f.path != c.src) = true
    ∧ notebook_graphstorm_imports.all
        (fun s => strHasPrefix "import graphstorm" s
          || strHasPrefix "from graphstorm." s) = true := by
  refine ⟨by decide, by decide, by decide, by decide, by decide, by decide,
    by decide⟩

/-- C5: in the multi-task YAML, the global basic batch_size is 32; every
task entry carrying its own batch_size resolves to that value, and every
task entry without one (only the edge-regression task) inherits 32. -/
theorem mt_task_batch_size_resolution :
    mt_basic_batch_size = 32
    ∧ mt_tasks.map (fun t => effective_batch_size mt_basic_batch_size t) =
        [16, 16, 64, 32, 128, 128, 128]
    ∧ (∀ t ∈ mt_tasks, ∀ b, t.batchSize = some b →
        effective_batch_size mt_basic_batch_size t = b)
    ∧ (∀ t ∈ mt_tasks, t.batchSize = none →
        effective_batch_size mt_basic_batch_size t = 32)
    ∧ mt_tasks[3]?.map MtTask.batchSize = some none := by
  refine ⟨rfl, by decide, ?_, ?_, by decide⟩
  · intro t _ b hb
    simp [effective_batch_size, hb]
  · intro t _ hb
    simp [effective_batch_size, hb, mt_basic_batch_size]

/-- Witness for C5: the edge-regression entry inherits 32, the
edge-classification entry keeps its own 64. -/
theorem mt_task_batch_size_resolution_witness :
    effective_batch_size mt_basic_batch_size
      ⟨"edge_regression", "rate", none⟩ = 32
    ∧ effective_batch_size mt_basic_batch_size
      ⟨"edge_classification", "rate_class", some 64⟩ = 64 := by
  have h := mt_task_batch_size_resolution
  exact ⟨h.2.2.2.1 ⟨"edge_regression", "rate", none⟩ (by decide) rfl,
    h.2.2.1 ⟨"edge_classification", "rate_class", some 64⟩ (by decide) 64 rfl⟩

/-- C6 counterexample: not every transformation of the feature entries
falls in the vocabulary asserted by the claim.  The age feature of the
gsprocessing configuration uses the numerical transformation with
normalizer none, which the claim does not list. -/
theorem feature_transform_vocab_counterexample :
    (all_feature_entries.all fun e =>
        match e.transformation with
        | some t => claimed_transform_vocab t
        | none => true) = false
    ∧ FeatureEntry.mk "age" none (some ⟨"numerical",
        [("normalizer", KwVal.vs "none"), ("imputer", KwVal.vs "mean"),
         ("out_dtype", KwVal.vs "float64")]⟩) ∈
        gsprocessing_small_graph_features
    ∧ claimed_transform_vocab ⟨"numerical",
        [("normalizer", KwVal.vs "none"), ("imputer", KwVal.vs "mean"),
         ("out_dtype", KwVal.vs "float64")]⟩ = false := by
  refine ⟨by decide, by decide, by decide⟩

/-- C6 (amended): every feature entry of the graph-construction
configurations names a nonempty source column and optionally a
transformation given by a name with keyword arguments, drawn from the
vocabulary actually present (numerical normalization with normalizer
none, min-max, standard or rank-gauss plus an imputer; multi-numerical;
no-op; bucketized numerical with bucket_cnt and range; categorical and
multi-categorical; HuggingFace tokenization or embedding with a model
name and max_seq_length; edge_dst_hard_negative); an entry with no
transformation takes the column values as-is; and distinct named
features may be derived from the same source column. -/
theorem feature_entries_amended :
    all_feature_entries.all (fun e => e.column != "") = true
    ∧ (all_feature_entries.all fun e =>
        match e.transformation with
        | some t => config_transform_vocab t
        | none => true) = true
    ∧ (∃ e ∈ all_feature_entries, e.transformation = none)
    ∧ (∃ e1 ∈ all_feature_entries, ∃ e2 ∈ all_feature_entries,
        e1.column = e2.column ∧ e1.featName ≠ e2.featName)
    ∧ (∀ (vals : List Int) (applyT : FeatTransform → List Int → List Int),
        apply_optional_transform none applyT vals = vals) := by
  refine ⟨by decide, by decide, by decide, by decide, fun vals applyT => rfl⟩

/-- C7: the CI security-scan workflow runs Semgrep with exactly the four
rulesets p/default, p/python, p/dockerfile and p/cwe-top-25, triggers on
every pull request, on pushes to ci_dev, ci_temporary, main and
opensource_gsf, and on a cron schedule whose hour field */12 fires at
hours 0 and 12 (every 12 hours); the scan job is skipped exactly when
the actor is dependabot[bot]. -/
theorem semgrep_workflow_spec :
    semgrep_workflow.scanRulesets =
      ["p/default", "p/python", "p/dockerfile", "p/cwe-top-25"]
    ∧ semgrep_workflow.scanRulesets.length = 4
    ∧ semgrep_workflow.onPullRequest = true
    ∧ semgrep_workflow.pushBranches =
        ["ci_dev", "ci_temporary", "main", "opensource_gsf"]
    ∧ semgrep_workflow.cronSchedules = ["0 */12 * * *"]
    ∧ (List.range 24).filter (cron_step_matches 12) = [0, 12]
    ∧ (∀ actor : String,
        semgrep_workflow.jobRunsIf actor = false ↔ actor = "dependabot[bot]") := by
  refine ⟨rfl, rfl, rfl, rfl, rfl, by decide, ?_⟩
  intro actor
  simp [semgrep_workflow]

/-- C8: the node-classification training pipeline run on a dataset whose
test set is empty completes with exit status zero (so the script-side
status check lets the script continue) and reports
Best Test accuracy: N/A at least once in its log (so the script-side
grep check passes). -/
theorem nc_no_test_set_run :
    nc_run_no_test_set.exitStatus = 0
    ∧ error_and_exit nc_run_no_test_set.exitStatus = none
    ∧ 1 ≤ bst_cnt nc_run_no_test_set.logLines
    ∧ no_test_check_exits nc_run_no_test_set.logLines = false := by
  refine ⟨rfl, by decide, by decide, by decide⟩

/-- C9: with --preserve-input True the remapping operation leaves the
input node-ID and prediction files unchanged (per node type the
prediction directory still holds NUM_TRAINERS node-ID part files and
NUM_TRAINERS prediction part files, so the counting checks of the test
script see NUM_TRAINERS times 2 predict-matching files and NUM_TRAINERS
nids-matching files); with the default of --preserve-input the input
files are removed after remapping. -/
theorem remap_preserve_input_files :
    (∀ d : NodeOutputDir, remap_result_files true d = d)
    ∧ (∀ d : NodeOutputDir,
        remap_result_files preserve_input_default d = ⟨[], []⟩)
    ∧ preserve_input_default = false
    ∧ (remap_result_files true (mk_pred_dir NUM_TRAINERS)).nidFiles.length =
        NUM_TRAINERS
    ∧ (remap_result_files true (mk_pred_dir NUM_TRAINERS)).predFiles.length =
        NUM_TRAINERS
    ∧ count_matching "predict"
        (dirFiles (remap_result_files true (mk_pred_dir NUM_TRAINERS))) =
        NUM_TRAINERS * 2
    ∧ count_matching "nids"
        (dirFiles (remap_result_files true (mk_pred_dir NUM_TRAINERS))) =
        NUM_TRAINERS := by
  refine ⟨fun d => rfl, fun d => rfl, rfl, by decide, by decide, by decide,
    by decide⟩

/-- C10: in every label split specification of the graph-construction
configurations, each fraction lies in the closed interval from 0 to 1
and the three fractions sum to at most 1; the movielens rate split sums
to strictly less than 1, and the part_002 edge_col split has a zero test
fraction. -/
theorem label_split_invariants :
    (∀ s ∈ all_label_splits, ∀ f ∈ split_fracs s, 0 ≤ f ∧ f ≤ 1)
    ∧ (∀ s ∈ all_label_splits, split_sum s ≤ 1)
    ∧ (∃ s ∈ all_label_splits, split_sum s < 1)
    ∧ (∃ s ∈ all_label_splits, s.test = 0) := by
  refine ⟨?_, ?_, ?_, ?_⟩
  · intro s hs f hf
    simp only [all_label_splits, List.mem_cons, List.not_mem_nil, or_false] at hs
    rcases hs with rfl | rfl | rfl | rfl | rfl | rfl | rfl <;>
      simp only [split_fracs, List.mem_cons, List.not_mem_nil, or_false] at hf <;>
      rcases hf with rfl | rfl | rfl <;> norm_num
  · intro s hs
    simp only [all_label_splits, List.mem_cons, List.not_mem_nil, or_false] at hs
    rcases hs with rfl | rfl | rfl | rfl | rfl | rfl | rfl <;>
      norm_num [split_sum]
  · refine ⟨⟨"rate", 1 / 10, 1 / 10, 1 / 10⟩, ?_, ?_⟩
    · simp [all_label_splits]
    · norm_num [split_sum]
  · refine ⟨⟨"edge_col", 8 / 10, 2 / 10, 0⟩, ?_, rfl⟩
    simp [all_label_splits]

/-- Witness for C10 at the gender split of the gsprocessing
configuration: its train fraction lies between 0 and 1. -/
theorem label_split_invariants_witness :
    0 ≤ (8 / 10 : ℚ) ∧ (8 / 10 : ℚ) ≤ 1 := by
  have h := label_split_invariants
  exact h.1 ⟨"gender", 8 / 10, 1 / 10, 1 / 10⟩ (by simp [all_label_splits])
    (8 / 10) (by simp [split_fracs])

end GraphStorm
